import Mathlib

/-!
Verification of the financial-computation and document-numbering core of the
Invoicecraft backend, embedded shallowly from the source:

* `src/utils/calculations.js` — `calculateOrderFormTotal` (the TotalsEngine);
* `src/utils/purchaseOrderCalculations.ts` — `calculatePurchaseOrderTotal`;
* `src/routes/invoiceRoutes.js` — invoice number formatting and the
  create-invoice control flow around the `get_next_invoice_sequence` RPC;
* `src/routes/purchaseOrderRoutes.js` — the `next-po-number` handler.

JavaScript numbers are modelled as rationals (`ℚ`); the duck-typed
`type` / `valueType` discriminators are modelled as `String`, exactly as the
source compares them.
-/

/-- `OrderFormItem` from `src/utils/calculations.js`: the engine reads only
`quantity` and `rate`; the other fields are opaque payload. -/
structure OrderFormItem where
  description : String
  quantity : ℚ
  rate : ℚ
  procurementPrice : Option ℚ := none
  vendorName : Option String := none
  id : Option String := none
deriving DecidableEq, Repr

/-- `AdditionalChargeFormData` from `src/utils/calculations.js`;
`valueType` is a raw string compared against "fixed" / "percentage". -/
structure AdditionalChargeFormData where
  name : String
  valueType : String
  value : ℚ
  id : Option String := none
deriving DecidableEq, Repr

/-- `Discount` from `src/utils/calculations.js`; `type` is a raw string
compared against "fixed" / "percentage". -/
structure Discount where
  enabled : Bool
  type : String
  value : ℚ
deriving DecidableEq, Repr

/-- The object returned by `calculateOrderFormTotal`. -/
structure TotalsResult where
  subtotal : ℚ
  discountAmount : ℚ
  taxAmount : ℚ
  grandTotal : ℚ
deriving DecidableEq, Repr

/-- `items.reduce((sum, item) => sum + item.quantity * item.rate, 0)`. -/
def mainItemsSubtotal (items : List OrderFormItem) : ℚ :=
  items.foldl (fun sum item => sum + item.quantity * item.rate) 0

/-- The discount block of `calculateOrderFormTotal`: `actualDiscountAmount`
starts at 0 and is assigned only when `discount.enabled && discount.value > 0`
and the type string matches "fixed" or "percentage". -/
def actualDiscountAmount (subtotal : ℚ) (discount : Discount) : ℚ :=
  if discount.enabled = true ∧ 0 < discount.value then
    if discount.type = "fixed" then discount.value
    else if discount.type = "percentage" then subtotal * discount.value / 100
    else 0
  else 0

/-- The `for (const charge of additionalCharges)` loop: the accumulator is
increased by `charge.value` for "fixed", by
`subtotalAfterDiscount * charge.value / 100` for "percentage", and left
unchanged otherwise. -/
def additionalChargesTotal (subtotalAfterDiscount : ℚ)
    (additionalCharges : List AdditionalChargeFormData) : ℚ :=
  additionalCharges.foldl
    (fun acc charge =>
      if charge.valueType = "fixed" then acc + charge.value
      else if charge.valueType = "percentage" then
        acc + subtotalAfterDiscount * charge.value / 100
      else acc) 0

/-- `calculateOrderFormTotal` from `src/utils/calculations.js` (identical to
the TypeScript original in `src/utils/calculations.ts`). -/
def calculateOrderFormTotal (items : List OrderFormItem)
    (additionalCharges : List AdditionalChargeFormData)
    (taxRate : ℚ) (discount : Discount) : TotalsResult :=
  let subtotalAfterDiscount :=
    mainItemsSubtotal items - actualDiscountAmount (mainItemsSubtotal items) discount
  let subtotalBeforeTax :=
    subtotalAfterDiscount + additionalChargesTotal subtotalAfterDiscount additionalCharges
  { subtotal := mainItemsSubtotal items
    discountAmount := actualDiscountAmount (mainItemsSubtotal items) discount
    taxAmount := subtotalBeforeTax * taxRate / 100
    grandTotal := subtotalBeforeTax + subtotalBeforeTax * taxRate / 100 }

/-- The contribution of one charge, read off the loop body: independent of any
running total, computed against the fixed `subtotalAfterDiscount`. -/
def chargeContribution (subtotalAfterDiscount : ℚ)
    (charge : AdditionalChargeFormData) : ℚ :=
  if charge.valueType = "fixed" then charge.value
  else if charge.valueType = "percentage" then
    subtotalAfterDiscount * charge.value / 100
  else 0

section FoldLemmas

lemma foldl_add_eq_sum {α : Type} (f : α → ℚ) (l : List α) (a : ℚ) :
    l.foldl (fun s x => s + f x) a = a + (l.map f).sum := by
  induction l generalizing a with
  | nil => simp
  | cons x xs ih => simp [ih, add_assoc]

lemma mainItemsSubtotal_eq_sum (items : List OrderFormItem) :
    mainItemsSubtotal items = (items.map (fun i => i.quantity * i.rate)).sum := by
  simpa using foldl_add_eq_sum (fun i : OrderFormItem => i.quantity * i.rate) items 0

lemma additionalChargesTotal_eq_sum (s : ℚ) (charges : List AdditionalChargeFormData) :
    additionalChargesTotal s charges = (charges.map (chargeContribution s)).sum := by
  have hfun : (fun acc charge =>
      if charge.valueType = "fixed" then acc + charge.value
      else if charge.valueType = "percentage" then acc + s * charge.value / 100
      else acc)
      = (fun (acc : ℚ) (charge : AdditionalChargeFormData) =>
          acc + chargeContribution s charge) := by
    funext acc charge
    by_cases h1 : charge.valueType = "fixed" <;>
      by_cases h2 : charge.valueType = "percentage" <;>
      simp [chargeContribution, h1, h2]
  unfold additionalChargesTotal
  rw [hfun]
  simpa using foldl_add_eq_sum (chargeContribution s) charges 0

end FoldLemmas

/-- Claim C1: `calculateOrderFormTotal` returns `subtotal` equal to the sum of
`quantity * rate` over all items (0 for the empty list, the pre-discount,
pre-charge value), `taxAmount` equal to
`(subtotal - discountAmount + chargesTotal) * taxRate / 100`, and `grandTotal`
equal to `(subtotal - discountAmount + chargesTotal) * (1 + taxRate / 100)`:
tax is applied to the post-discount, post-charges subtotal. -/
theorem C1_totals_formulas (items : List OrderFormItem)
    (charges : List AdditionalChargeFormData) (taxRate : ℚ) (discount : Discount) :
    let r := calculateOrderFormTotal items charges taxRate discount
    let s := r.subtotal - r.discountAmount
    r.subtotal = (items.map (fun i => i.quantity * i.rate)).sum ∧
    r.taxAmount = (r.subtotal - r.discountAmount
      + (charges.map (chargeContribution s)).sum) * taxRate / 100 ∧
    r.grandTotal = (r.subtotal - r.discountAmount
      + (charges.map (chargeContribution s)).sum) * (1 + taxRate / 100) := by
  refine ⟨mainItemsSubtotal_eq_sum items, ?_, ?_⟩
  all_goals simp only [calculateOrderFormTotal, additionalChargesTotal_eq_sum]
  all_goals ring

/-- Claim C2: discountAmount is exactly 0 whenever the discount is disabled or
its amount is ≤ 0, regardless of kind; otherwise a "fixed" discount is returned
verbatim (not capped at the items subtotal, so it may exceed it) and a
"percentage" discount equals itemsSubtotal * amount / 100. -/
theorem C2_discount_rules :
    (∀ (items : List OrderFormItem) (charges : List AdditionalChargeFormData)
        (t : ℚ) (d : Discount), ¬(d.enabled = true ∧ 0 < d.value) →
      (calculateOrderFormTotal items charges t d).discountAmount = 0) ∧
    (∀ (items : List OrderFormItem) (charges : List AdditionalChargeFormData)
        (t : ℚ) (d : Discount), d.enabled = true → 0 < d.value → d.type = "fixed" →
      (calculateOrderFormTotal items charges t d).discountAmount = d.value) ∧
    (∀ (items : List OrderFormItem) (charges : List AdditionalChargeFormData)
        (t : ℚ) (d : Discount), d.enabled = true → 0 < d.value → d.type = "percentage" →
      (calculateOrderFormTotal items charges t d).discountAmount
        = (items.map (fun i => i.quantity * i.rate)).sum * d.value / 100) ∧
    ((calculateOrderFormTotal [⟨"a", 1, 100, none, none, none⟩] [] 0
        ⟨true, "fixed", 150⟩).discountAmount = 150 ∧
      (calculateOrderFormTotal [⟨"a", 1, 100, none, none, none⟩] [] 0
        ⟨true, "fixed", 150⟩).subtotal
        < (calculateOrderFormTotal [⟨"a", 1, 100, none, none, none⟩] [] 0
            ⟨true, "fixed", 150⟩).discountAmount) := by
  refine ⟨?_, ?_, ?_, ?_⟩
  · intro items charges t d h
    simp [calculateOrderFormTotal, actualDiscountAmount, h]
  · intro items charges t d h1 h2 h3
    simp [calculateOrderFormTotal, actualDiscountAmount, h1, h2, h3]
  · intro items charges t d h1 h2 h3
    have hnf : d.type ≠ "fixed" := by simp [h3]
    simp [calculateOrderFormTotal, actualDiscountAmount, h1, h2, h3, hnf,
      mainItemsSubtotal_eq_sum]
  · constructor <;>
      simp [calculateOrderFormTotal, actualDiscountAmount, mainItemsSubtotal] <;>
      norm_num

/-- Closed witness for C2 at concrete inputs, discharging each hypothesis. -/
theorem C2_discount_rules_witness :
    (calculateOrderFormTotal [] [] 0 ⟨false, "fixed", 50⟩).discountAmount = 0 ∧
    (calculateOrderFormTotal [⟨"a", 2, 50, none, none, none⟩] [] 0
      ⟨true, "fixed", 30⟩).discountAmount = 30 ∧
    (calculateOrderFormTotal [⟨"a", 2, 100, none, none, none⟩] [] 0
      ⟨true, "percentage", 10⟩).discountAmount
      = ([⟨"a", 2, 100, none, none, none⟩].map
          (fun i : OrderFormItem => i.quantity * i.rate)).sum * 10 / 100 :=
  ⟨C2_discount_rules.1 [] [] 0 ⟨false, "fixed", 50⟩ (by norm_num),
   C2_discount_rules.2.1 [⟨"a", 2, 50, none, none, none⟩] [] 0
     ⟨true, "fixed", 30⟩ rfl (by norm_num) rfl,
   C2_discount_rules.2.2.1 [⟨"a", 2, 100, none, none, none⟩] [] 0
     ⟨true, "percentage", 10⟩ rfl (by norm_num) rfl⟩

/-- Claim C3: each "percentage" charge contributes
subtotalAfterDiscount * amount / 100 (with subtotalAfterDiscount =
itemsSubtotal - discountAmount, never the raw itemsSubtotal), each "fixed"
charge contributes its amount, and the charge total is invariant under any
permutation of the charges list, since no charge sees a running total. The
spec example (subtotal 100, fixed discount 20, 10 percent charge) contributes
8, not 10, giving grand total 88 at tax 0. -/
theorem C3_charges_independent :
    (∀ (s : ℚ) (charges : List AdditionalChargeFormData),
      additionalChargesTotal s charges = (charges.map (chargeContribution s)).sum) ∧
    (∀ (s : ℚ) (c : AdditionalChargeFormData), c.valueType = "fixed" →
      chargeContribution s c = c.value) ∧
    (∀ (s : ℚ) (c : AdditionalChargeFormData), c.valueType = "percentage" →
      chargeContribution s c = s * c.value / 100) ∧
    (∀ (s : ℚ) (charges charges' : List AdditionalChargeFormData),
      charges.Perm charges' →
      additionalChargesTotal s charges = additionalChargesTotal s charges') ∧
    ((calculateOrderFormTotal [⟨"a", 1, 100, none, none, none⟩]
        [⟨"c", "percentage", 10, none⟩] 0 ⟨true, "fixed", 20⟩).grandTotal = 88 ∧
      chargeContribution (100 - 20) ⟨"c", "percentage", 10, none⟩ = 8) := by
  refine ⟨additionalChargesTotal_eq_sum, ?_, ?_, ?_, by
    constructor <;>
      simp [calculateOrderFormTotal, actualDiscountAmount, additionalChargesTotal,
        mainItemsSubtotal, chargeContribution] <;>
      norm_num⟩
  · intro s c h
    simp [chargeContribution, h]
  · intro s c h
    by_cases hf : c.valueType = "fixed"
    · rw [hf] at h; simp at h
    · simp [chargeContribution, h, hf]
  · intro s charges charges' hperm
    rw [additionalChargesTotal_eq_sum, additionalChargesTotal_eq_sum]
    exact (hperm.map (chargeContribution s)).sum_eq

/-- Closed witness for C3, applying the theorem at concrete inputs. -/
theorem C3_charges_independent_witness :
    chargeContribution 80 ⟨"f", "fixed", 7, none⟩ = 7 ∧
    chargeContribution 80 ⟨"p", "percentage", 10, none⟩ = 80 * 10 / 100 ∧
    additionalChargesTotal 80
        [⟨"f", "fixed", 7, none⟩, ⟨"p", "percentage", 10, none⟩]
      = additionalChargesTotal 80
        [⟨"p", "percentage", 10, none⟩, ⟨"f", "fixed", 7, none⟩] :=
  ⟨C3_charges_independent.2.1 80 ⟨"f", "fixed", 7, none⟩ rfl,
   C3_charges_independent.2.2.1 80 ⟨"p", "percentage", 10, none⟩ rfl,
   C3_charges_independent.2.2.2.1 80
     [⟨"f", "fixed", 7, none⟩, ⟨"p", "percentage", 10, none⟩]
     [⟨"p", "percentage", 10, none⟩, ⟨"f", "fixed", 7, none⟩]
     (List.Perm.swap _ _ _)⟩

/-- Claim C4: for every numeric input the engine is total and clamps no field:
grandTotal always equals the raw algebraic expression, so negative quantities,
a discount exceeding the subtotal, or a negative tax rate propagate unchanged
into a (possibly negative) grand total — e.g. subtotal 100 with fixed discount
150 and tax 10 yields grand total -55. -/
theorem C4_no_clamping :
    (∀ (items : List OrderFormItem) (charges : List AdditionalChargeFormData)
        (t : ℚ) (d : Discount),
      let r := calculateOrderFormTotal items charges t d
      r.grandTotal = (r.subtotal - r.discountAmount
        + (charges.map (chargeContribution (r.subtotal - r.discountAmount))).sum)
          * (1 + t / 100)) ∧
    ((calculateOrderFormTotal [⟨"a", 1, 100, none, none, none⟩] [] 10
        ⟨true, "fixed", 150⟩).grandTotal = -55 ∧
      (calculateOrderFormTotal [⟨"a", 1, 100, none, none, none⟩] [] 10
        ⟨true, "fixed", 150⟩).grandTotal < 0 ∧
      (calculateOrderFormTotal [⟨"a", -2, 50, none, none, none⟩] [] 0
        ⟨false, "fixed", 0⟩).subtotal = -100 ∧
      (calculateOrderFormTotal [⟨"a", 1, 100, none, none, none⟩] [] (-50)
        ⟨false, "fixed", 0⟩).grandTotal = 50) := by
  constructor
  · intro items charges t d
    exact (C1_totals_formulas items charges t d).2.2
  · refine ⟨?_, ?_, ?_, ?_⟩ <;>
      simp [calculateOrderFormTotal, actualDiscountAmount, additionalChargesTotal,
        mainItemsSubtotal] <;>
      norm_num

/-- `PurchaseOrderItem` from `src/utils/purchaseOrderCalculations.ts`. -/
structure PurchaseOrderItem where
  description : String
  quantity : ℚ
  rate : ℚ
  procurementPrice : ℚ
  id : Option String := none
deriving DecidableEq, Repr

/-- The object returned by `calculatePurchaseOrderTotal`. -/
structure PurchaseOrderTotals where
  totalAmount : ℚ
deriving DecidableEq, Repr

/-- `calculatePurchaseOrderTotal` from `src/utils/purchaseOrderCalculations.ts`:
`items.reduce((sum, item) => sum + item.quantity * item.procurementPrice, 0)`. -/
def calculatePurchaseOrderTotal (items : List PurchaseOrderItem) : PurchaseOrderTotals :=
  { totalAmount := items.foldl (fun sum item => sum + item.quantity * item.procurementPrice) 0 }

/-- The field restriction embedding a purchase-order item into an order-form
item with the procurement price taken as the rate. -/
def toOrderFormItem (i : PurchaseOrderItem) : OrderFormItem :=
  { description := i.description, quantity := i.quantity, rate := i.procurementPrice,
    procurementPrice := some i.procurementPrice, vendorName := none, id := i.id }

lemma calculatePurchaseOrderTotal_eq_sum (items : List PurchaseOrderItem) :
    (calculatePurchaseOrderTotal items).totalAmount
      = (items.map (fun i => i.quantity * i.procurementPrice)).sum := by
  simpa [calculatePurchaseOrderTotal] using
    foldl_add_eq_sum (fun i : PurchaseOrderItem => i.quantity * i.procurementPrice) items 0

/-- Claim C5: the purchase-order variant returns the sum of
quantity * procurementPrice, and this equals the grandTotal of
`calculateOrderFormTotal` on the same items (procurement price as rate), an
empty charges list, tax rate 0, and any disabled discount: the two
computations never drift apart. -/
theorem C5_purchase_order_refines_engine (items : List PurchaseOrderItem)
    (d : Discount) (hd : d.enabled = false) :
    (calculatePurchaseOrderTotal items).totalAmount
      = (items.map (fun i => i.quantity * i.procurementPrice)).sum ∧
    (calculatePurchaseOrderTotal items).totalAmount
      = (calculateOrderFormTotal (items.map toOrderFormItem) [] 0 d).grandTotal := by
  refine ⟨calculatePurchaseOrderTotal_eq_sum items, ?_⟩
  have hdisc : ¬(d.enabled = true ∧ 0 < d.value) := by simp [hd]
  have hcomp : ((fun i : OrderFormItem => i.quantity * i.rate) ∘ toOrderFormItem)
      = fun i : PurchaseOrderItem => i.quantity * i.procurementPrice := by
    funext i
    simp [toOrderFormItem]
  simp [calculateOrderFormTotal, actualDiscountAmount, additionalChargesTotal, hdisc,
    mainItemsSubtotal_eq_sum, calculatePurchaseOrderTotal_eq_sum,
    List.map_map, hcomp]

/-- Closed witness for C5 at a concrete item list and disabled discount. -/
theorem C5_purchase_order_refines_engine_witness :
    (calculatePurchaseOrderTotal [⟨"a", 2, 5, 30, none⟩, ⟨"b", 1, 9, 40, none⟩]).totalAmount
      = (calculateOrderFormTotal
          ([⟨"a", 2, 5, 30, none⟩, ⟨"b", 1, 9, 40, none⟩].map toOrderFormItem)
          [] 0 ⟨false, "percentage", 99⟩).grandTotal :=
  (C5_purchase_order_refines_engine
    [⟨"a", 2, 5, 30, none⟩, ⟨"b", 1, 9, 40, none⟩]
    ⟨false, "percentage", 99⟩ rfl).2

/-- JavaScript `String.prototype.padStart(targetLen, c)`: prepend copies of
`c` until the length reaches `targetLen`; a string already at least that long
is returned unchanged (`targetLen - s.length = 0`). -/
def padStart (s : String) (targetLen : Nat) (c : Char) : String :=
  String.mk (List.replicate (targetLen - s.length) c) ++ s

/-- Invoice number formatting from `src/routes/invoiceRoutes.js`:
`` `${invoicePrefix}${String(nextNumber).padStart(3, '0')}` ``. -/
def formatInvoiceNumber (pfx : String) (n : Nat) : String :=
  pfx ++ padStart (toString n) 3 '0'

/-- Purchase-order number formatting from the `next-po-number` handler in
`src/routes/purchaseOrderRoutes.js`:
`'PO-' + String(nextNum).padStart(2, '0')` — two digits, not three. -/
def formatPoNumber (n : Nat) : String :=
  "PO-" ++ padStart (toString n) 2 '0'

lemma padStart_length (s : String) (k : Nat) (c : Char) :
    (padStart s k c).length = max k s.length := by
  simp only [padStart, String.length_append]
  have : (String.mk (List.replicate (k - s.length) c)).length = k - s.length := by
    show (List.replicate (k - s.length) c).length = k - s.length
    simp
  omega

lemma padStart_zeros (s : String) (k : Nat) :
    ∃ zeros : String, padStart s k '0' = zeros ++ s ∧ ∀ ch ∈ zeros.data, ch = '0' := by
  refine ⟨String.mk (List.replicate (k - s.length) '0'), rfl, ?_⟩
  intro ch hch
  exact List.eq_of_mem_replicate hch

/-- Claim C6 counterexample: the purchase-order kind mints numbers padded to a
minimum of two digits, not three: the allocated integer 7 yields "PO-07",
which differs from "PO-" followed by 7 padded to three digits ("PO-007"). -/
theorem C6_counterexample_po_two_digit_padding :
    formatPoNumber 7 = "PO-07" ∧
    formatPoNumber 7 ≠ "PO-" ++ padStart (toString 7) 3 '0' := by
  constructor <;> decide

/-- Claim C6 amended: invoice numbers are the prefix concatenated with the
allocated integer zero-padded to a minimum of three digits (7 yields
"INV-007", 1500 yields "INV-1500"); purchase-order numbers use a minimum of
two digits (7 yields "PO-07", 1500 yields "PO-1500"). In both cases padding
only adds leading zeros and never truncates: the formatted number is the
prefix, then a run of zeros, then the decimal digits of the integer, with
length prefix + max(minWidth, digits). -/
theorem C6_amended_zero_padding :
    (formatInvoiceNumber "INV-" 7 = "INV-007" ∧
      formatInvoiceNumber "INV-" 1500 = "INV-1500" ∧
      formatPoNumber 7 = "PO-07" ∧
      formatPoNumber 1500 = "PO-1500") ∧
    (∀ (pfx : String) (n : Nat), ∃ zeros : String,
      formatInvoiceNumber pfx n = pfx ++ (zeros ++ toString n) ∧
      (∀ ch ∈ zeros.data, ch = '0') ∧
      (formatInvoiceNumber pfx n).length = pfx.length + max 3 (toString n).length) ∧
    (∀ n : Nat, ∃ zeros : String,
      formatPoNumber n = "PO-" ++ (zeros ++ toString n) ∧
      (∀ ch ∈ zeros.data, ch = '0') ∧
      (formatPoNumber n).length = "PO-".length + max 2 (toString n).length) := by
  refine ⟨⟨by decide, by decide, by decide, by decide⟩, ?_, ?_⟩
  · intro pfx n
    obtain ⟨zeros, hz, hall⟩ := padStart_zeros (toString n) 3
    exact ⟨zeros, by rw [formatInvoiceNumber, hz], hall,
      by rw [formatInvoiceNumber, String.length_append, padStart_length]⟩
  · intro n
    obtain ⟨zeros, hz, hall⟩ := padStart_zeros (toString n) 2
    exact ⟨zeros, by rw [formatPoNumber, hz], hall,
      by rw [formatPoNumber, String.length_append, padStart_length]⟩

/-- Modelled from the spec: `get_next_invoice_sequence` is a database-side
function (not present in the repository sources; only its invocation via
`supabase.rpc` is) that atomically increments the per-(tenant, prefix)
counter and returns the new value as one indivisible step. The state is the
stored counter; the result pairs the new counter state with the returned
value, which are equal. -/
def get_next_invoice_sequence (counter : Nat) : Nat × Nat :=
  (counter + 1, counter + 1)

/-- `n` successive allocations through the atomic counter, threading the
store state; atomicity of each increment means any concurrent schedule is
equivalent to some serial order, which this models. -/
def allocateSequence : Nat → Nat → List Nat
  | _, 0 => []
  | counter, Nat.succ k =>
    let step := get_next_invoice_sequence counter
    step.2 :: allocateSequence step.1 k

/-- The digit-string to integer conversion of `parseInt(match[1], 10)`. -/
def digitsToNat (ds : List Char) : Nat :=
  ds.foldl (fun n ch => n * 10 + (ch.toNat - 48)) 0

/-- The `lastPoNumber.match(/PO-(\d+)/)` step of the `next-po-number` handler,
for strings in the stored format that begin with "PO-": the digit run after
"PO-" is extracted and parsed in base 10; no digits means no match. -/
def parsePoNumber (s : String) : Option Nat :=
  match s.data with
  | 'P' :: 'O' :: '-' :: rest =>
    let ds := rest.takeWhile (fun ch => ch.isDigit)
    if ds.isEmpty then none else some (digitsToNat ds)
  | _ => none

/-- The `next-po-number` handler from `src/routes/purchaseOrderRoutes.js`: it
reads the most recent stored `po_number`, parses it, adds one and formats the
result; it performs no write to the store. A missing or unparseable last
number yields the default "PO-01". -/
def poNextNumberHandler (latestPoNumber : Option String) : String :=
  match latestPoNumber with
  | none => "PO-01"
  | some lastPoNumber =>
    match parsePoNumber lastPoNumber with
    | some currentNum => formatPoNumber (currentNum + 1)
    | none => "PO-01"

/-- Two successive calls of the purchase-order next-number handler: the
handler does not modify the store, so the second call observes the same
latest stored number as the first. -/
def poAllocateTwice (latestPoNumber : Option String) : String × String :=
  (poNextNumberHandler latestPoNumber, poNextNumberHandler latestPoNumber)

lemma allocateSequence_eq_range' (start n : Nat) :
    allocateSequence start n = List.range' (start + 1) n := by
  induction n generalizing start with
  | zero => rfl
  | succ k ih =>
    rw [List.range'_succ]
    simp only [allocateSequence, get_next_invoice_sequence]
    exact congrArg (List.cons (start + 1)) (ih (start + 1))

/-- Claim C7 counterexample: the purchase-order next-number path is a
non-atomic read of the latest stored number followed by computing the next
value in the handler; it increments nothing, so two allocations against the
same store state return the same number ("PO-06" twice from latest "PO-05"),
not distinct numbers. -/
theorem C7_counterexample_po_read_then_compute :
    (poAllocateTwice (some "PO-05")).1 = "PO-06" ∧
    (poAllocateTwice (some "PO-05")).2 = "PO-06" ∧
    (poAllocateTwice (some "PO-05")).1 = (poAllocateTwice (some "PO-05")).2 := by
  refine ⟨by decide, by decide, rfl⟩

/-- Claim C7 amended: the invoice allocator delegates to the atomic
increment-and-return counter, so N allocations starting from counter value
`start` return exactly start+1, …, start+N: pairwise distinct, no gaps. The
purchase-order next-number handler is instead a non-atomic read of the
latest stored number followed by computing the next value, which returns
duplicates when the store is unchanged between calls. -/
theorem C7_amended_allocation :
    (∀ start n : Nat, allocateSequence start n = List.range' (start + 1) n) ∧
    (∀ start n : Nat, (allocateSequence start n).Nodup) ∧
    (∀ start n m : Nat,
      m ∈ allocateSequence start n ↔ start + 1 ≤ m ∧ m < start + 1 + n) ∧
    ((poAllocateTwice (some "PO-05")).1 = (poAllocateTwice (some "PO-05")).2) := by
  refine ⟨allocateSequence_eq_range', ?_, ?_, rfl⟩
  · intro start n
    rw [allocateSequence_eq_range']
    exact List.nodup_range' (start + 1) n
  · intro start n m
    rw [allocateSequence_eq_range']
    exact List.mem_range'_1

/-- The HTTP outcome of the create-invoice handler, reduced to what the claim
observes: the status code of the response. -/
inductive HandlerResponse where
  | success (status : Nat) (invoiceNumber : String)
  | failure (status : Nat) (message : String)
deriving DecidableEq, Repr

/-- The row shape inserted into the `invoice` table, restricted to the fields
the claims observe. -/
structure InvoiceRecord where
  invoiceNumber : String
  subtotal : ℚ
  discountAmount : ℚ
  taxAmount : ℚ
  total : ℚ
deriving DecidableEq, Repr

/-- The customer row read before insertion (`name`, `currency`). -/
structure Customer where
  name : String
  currency : Option String
deriving DecidableEq, Repr

/-- The create-invoice flow of `POST /api/invoices` in
`src/routes/invoiceRoutes.js`, as a function of the outcomes of its external
calls: if the `get_next_invoice_sequence` RPC errors, the handler returns 500
immediately; otherwise it formats the number, fetches the customer (a failure
there returns 400), computes totals and only then inserts the record. The
second component lists the insert operations performed. -/
def createInvoiceHandler (rpcResult : Except String Nat) (pfx : String)
    (customerResult : Except String Customer)
    (items : List OrderFormItem) (charges : List AdditionalChargeFormData)
    (taxRate : ℚ) (discount : Discount) : HandlerResponse × List InvoiceRecord :=
  match rpcResult with
  | Except.error msg =>
    (HandlerResponse.failure 500 ("Failed to generate next invoice number." ++ msg), [])
  | Except.ok nextNumber =>
    let generatedInvoiceNumber := formatInvoiceNumber pfx nextNumber
    match customerResult with
    | Except.error _ =>
      (HandlerResponse.failure 400 "Customer not found or not accessible by your account.", [])
    | Except.ok _ =>
      let totals := calculateOrderFormTotal items charges taxRate discount
      let record : InvoiceRecord :=
        { invoiceNumber := generatedInvoiceNumber
          subtotal := totals.subtotal
          discountAmount := totals.discountAmount
          taxAmount := totals.taxAmount
          total := totals.grandTotal }
      (HandlerResponse.success 201 generatedInvoiceNumber, [record])

/-- Claim C8: if the atomic sequence increment fails, the create flow aborts
before any persistence: the handler returns a 500 error response and performs
no insert, so a document is never persisted without an allocated number. -/
theorem C8_sequence_failure_aborts (rpcResult : Except String Nat) (pfx : String)
    (customerResult : Except String Customer)
    (items : List OrderFormItem) (charges : List AdditionalChargeFormData)
    (taxRate : ℚ) (discount : Discount) (msg : String)
    (h : rpcResult = Except.error msg) :
    (createInvoiceHandler rpcResult pfx customerResult items charges taxRate discount).2
      = [] ∧
    ∃ emsg, (createInvoiceHandler rpcResult pfx customerResult items charges
      taxRate discount).1 = HandlerResponse.failure 500 emsg := by
  subst h
  exact ⟨rfl, _, rfl⟩

/-- Closed witness for C8: a concrete RPC failure yields no insert. -/
theorem C8_sequence_failure_aborts_witness :
    (createInvoiceHandler (Except.error "store unavailable") "INV-"
      (Except.ok ⟨"Acme", some "USD"⟩) [] [] 0 ⟨false, "fixed", 0⟩).2 = [] :=
  (C8_sequence_failure_aborts (Except.error "store unavailable") "INV-"
    (Except.ok ⟨"Acme", some "USD"⟩) [] [] 0 ⟨false, "fixed", 0⟩
    "store unavailable" rfl).1

/-- The projection of an item to the fields the engine reads. -/
def itemKey (i : OrderFormItem) : ℚ × ℚ := (i.quantity, i.rate)

/-- The projection of a charge to the fields the engine reads. -/
def chargeKey (c : AdditionalChargeFormData) : String × ℚ := (c.valueType, c.value)

/-- The projection of a discount to the fields the engine reads. -/
def discountKey (d : Discount) : Bool × String × ℚ := (d.enabled, d.type, d.value)

/-- Claim C9: `calculateOrderFormTotal` is a pure deterministic mapping: two
invocations whose inputs agree on every field the engine reads (quantities and
rates of the items in order, value types and values of the charges in order,
the tax rate, and the discount's enabled/type/value) return identical
TotalsResult values in every field — there is no hidden state or effect the
result could depend on. -/
theorem C9_pure_deterministic (items₁ items₂ : List OrderFormItem)
    (charges₁ charges₂ : List AdditionalChargeFormData) (taxRate : ℚ)
    (d₁ d₂ : Discount)
    (hi : items₁.map itemKey = items₂.map itemKey)
    (hc : charges₁.map chargeKey = charges₂.map chargeKey)
    (hd : discountKey d₁ = discountKey d₂) :
    calculateOrderFormTotal items₁ charges₁ taxRate d₁
      = calculateOrderFormTotal items₂ charges₂ taxRate d₂ := by
  obtain ⟨he, ht, hv⟩ : d₁.enabled = d₂.enabled ∧ d₁.type = d₂.type ∧ d₁.value = d₂.value := by
    simpa [discountKey, Prod.ext_iff] using hd
  have hsub : mainItemsSubtotal items₁ = mainItemsSubtotal items₂ := by
    rw [mainItemsSubtotal_eq_sum, mainItemsSubtotal_eq_sum]
    have e : ∀ items : List OrderFormItem,
        items.map (fun i => i.quantity * i.rate)
          = (items.map itemKey).map (fun p => p.1 * p.2) := by
      intro items
      rw [List.map_map]
      rfl
    rw [e, e, hi]
  have hdisc : ∀ s : ℚ, actualDiscountAmount s d₁ = actualDiscountAmount s d₂ := by
    intro s
    simp only [actualDiscountAmount, he, ht, hv]
  have hch : ∀ s : ℚ, additionalChargesTotal s charges₁ = additionalChargesTotal s charges₂ := by
    intro s
    rw [additionalChargesTotal_eq_sum, additionalChargesTotal_eq_sum]
    have e : ∀ charges : List AdditionalChargeFormData,
        charges.map (chargeContribution s)
          = (charges.map chargeKey).map
              (fun p => if p.1 = "fixed" then p.2
                else if p.1 = "percentage" then s * p.2 / 100 else 0) := by
      intro charges
      rw [List.map_map]
      rfl
    rw [e, e, hc]
  simp only [calculateOrderFormTotal, hsub, hdisc, hch]

/-- Closed witness for C9: items, charges and discounts that differ only in
fields the engine ignores (descriptions, names, ids, vendor fields) yield
identical results. -/
theorem C9_pure_deterministic_witness :
    calculateOrderFormTotal [⟨"widget", 2, 5, none, none, some "id1"⟩]
      [⟨"fee", "fixed", 3, some "c1"⟩] 10 ⟨true, "fixed", 4⟩
      = calculateOrderFormTotal [⟨"other name", 2, 5, some 9, some "vendor", none⟩]
        [⟨"renamed", "fixed", 3, none⟩] 10 ⟨true, "fixed", 4⟩ :=
  C9_pure_deterministic [⟨"widget", 2, 5, none, none, some "id1"⟩]
    [⟨"other name", 2, 5, some 9, some "vendor", none⟩]
    [⟨"fee", "fixed", 3, some "c1"⟩] [⟨"renamed", "fixed", 3, none⟩]
    10 ⟨true, "fixed", 4⟩ ⟨true, "fixed", 4⟩ rfl rfl rfl

/-- Claim C10: a discount whose type tag is neither "fixed" nor "percentage"
yields discountAmount exactly 0 even when enabled with a positive amount, and
a charge whose valueType is neither "fixed" nor "percentage" contributes
exactly 0 to the charges total: unrecognized tags are silently treated as
absent, never rejected. -/
theorem C10_unrecognized_tags_ignored (items : List OrderFormItem)
    (charges : List AdditionalChargeFormData) (taxRate : ℚ) (d : Discount)
    (hd1 : d.type ≠ "fixed") (hd2 : d.type ≠ "percentage") :
    (calculateOrderFormTotal items charges taxRate d).discountAmount = 0 ∧
    (∀ (s : ℚ) (c : AdditionalChargeFormData),
      c.valueType ≠ "fixed" → c.valueType ≠ "percentage" →
      chargeContribution s c = 0 ∧
      ∀ rest : List AdditionalChargeFormData,
        additionalChargesTotal s (c :: rest) = additionalChargesTotal s rest) := by
  constructor
  · simp [calculateOrderFormTotal, actualDiscountAmount, hd1, hd2]
  · intro s c hc1 hc2
    refine ⟨by simp [chargeContribution, hc1, hc2], ?_⟩
    intro rest
    simp [additionalChargesTotal, hc1, hc2]

/-- Closed witness for C10 at an enabled positive discount with the
unrecognized tag "flat" and a charge with the unrecognized tag "percent". -/
theorem C10_unrecognized_tags_ignored_witness :
    (calculateOrderFormTotal [⟨"a", 1, 100, none, none, none⟩] [] 0
      ⟨true, "flat", 50⟩).discountAmount = 0 ∧
    chargeContribution 100 ⟨"x", "percent", 10, none⟩ = 0 :=
  ⟨(C10_unrecognized_tags_ignored [⟨"a", 1, 100, none, none, none⟩] [] 0
      ⟨true, "flat", 50⟩ (by decide) (by decide)).1,
   ((C10_unrecognized_tags_ignored [] [] 0 ⟨true, "flat", 50⟩
      (by decide) (by decide)).2 100 ⟨"x", "percent", 10, none⟩
      (by decide) (by decide)).1⟩
